import Mathlib

/-
Verification development for the strawberry harvest predictor
(backend/app: ml_dataset.py, ml_model.py, prediction_service.py,
validate_predictions.py).

Shallow embedding conventions:
- machine floats become rational numbers; the float computations of the code
  are idealized as exact rational arithmetic;
- calendar dates become day numbers (Nat), with day 0 falling on a Monday, so
  that the Python weekday() of day number d is d mod 7 (Monday = 0);
- pandas frames become Lean lists; a rolling(w, min_periods = 1) aggregate at
  row i covers the last at-most-w rows among rows 0..i, inclusive of row i;
- a single variety with consecutive daily records inside one calendar year is
  modelled (the per-variety groupby of the batch code restricts each rolling
  computation to one variety, and consecutive dates make the row-based pandas
  windows coincide with the calendar-range queries of the incremental code);
- fallible code returns Option or Except.
-/

namespace Strawberry

/-- Day-of-week to harvest-fraction table of ml_dataset.py lines 96-104
(the same literal table appears in prediction_service.py line 96 and
ml_model.py lines 254-262): Monday-Wednesday one third, Thursday-Saturday one
half, Sunday zero. -/
def harvest_fraction : Nat → ℚ
  | 0 => 1/3
  | 1 => 1/3
  | 2 => 1/3
  | 3 => 1/2
  | 4 => 1/2
  | 5 => 1/2
  | _ => 0

/-- Batch capacity transform, ml_dataset.py lines 110-113: kg_biological is
kg_produced divided by the harvest fraction, and rows whose fraction is zero
are overwritten with 0 (the same computation appears in
validate_predictions.py line 75). -/
def to_capacity (dow : Nat) (kg : ℚ) : ℚ :=
  if harvest_fraction dow = 0 then 0 else kg / harvest_fraction dow

/-- Inverse transform, ml_model.py line 267 and prediction_service.py
line 251: observed production is biological capacity times the fraction. -/
def to_observed (dow : Nat) (kg : ℚ) : ℚ :=
  kg * harvest_fraction dow

/-- Incremental capacity transform, prediction_service.py line 98:
kg_produced divided by the fraction with zero entries replaced by 1. -/
def to_capacity_incr (dow : Nat) (kg : ℚ) : ℚ :=
  kg / (if harvest_fraction dow = 0 then 1 else harvest_fraction dow)

/-- Mean of a list of rationals, as pandas mean: sum over length. -/
def listMean (xs : List ℚ) : ℚ :=
  xs.sum / (xs.length : ℚ)

/-- One merged harvest-and-weather row of the batch dataset
(ml_dataset.py line 56): the per-day observed kg together with the daily
weather record. -/
structure RawDay where
  kg_produced : ℚ
  temperature_mean : ℚ
  humidity_mean : ℚ
  precipitation : ℚ
  sunshine_duration : ℚ
  solar_radiation : ℚ
deriving DecidableEq, Repr

instance : Inhabited RawDay := ⟨⟨0, 0, 0, 0, 0, 0⟩⟩

/-- History of one variety: consecutive daily merged records starting at day
number firstDate (day 0 is a Monday), all inside one calendar year whose
January 1st has day number jan1, with a constant plant count in force. -/
structure Dataset where
  firstDate : Nat
  jan1 : Nat
  plants_nbrs : Nat
  rows : List RawDay
deriving Repr

/-- Python weekday of the date of row i (Monday = 0), ml_dataset.py line 92. -/
def Dataset.dow (ds : Dataset) (i : Nat) : Nat :=
  (ds.firstDate + i) % 7

/-- Value of column f at row i (0 outside the frame). -/
def Dataset.col (ds : Dataset) (f : RawDay → ℚ) (i : Nat) : ℚ :=
  f (ds.rows.getD i default)

/-- Full column f of the frame, in chronological row order. -/
def Dataset.colList (ds : Dataset) (f : RawDay → ℚ) : List ℚ :=
  ds.rows.map f

/-- Rows covered by a pandas rolling(w, min_periods = 1) aggregate at row i:
the last at-most-w entries among rows 0..i, inclusive of row i. -/
def trailing_window (xs : List ℚ) (w i : Nat) : List ℚ :=
  (xs.take (i + 1)).drop (i + 1 - w)

/-- rolling(w, min_periods = 1).mean() at row i. -/
def roll_mean (xs : List ℚ) (w i : Nat) : ℚ :=
  listMean (trailing_window xs w i)

/-- rolling(w, min_periods = 1).sum() at row i. -/
def roll_sum (xs : List ℚ) (w i : Nat) : ℚ :=
  (trailing_window xs w i).sum

/-- Batch kg_biological column, ml_dataset.py lines 110-113: the capacity
transform applied rowwise, with zero-fraction rows set to 0. -/
def Dataset.kg_biological (ds : Dataset) : List ℚ :=
  (List.range ds.rows.length).map
    (fun i => to_capacity (ds.dow i) (ds.col RawDay.kg_produced i))

/-- The rolling and lag feature columns named by the parity contract:
7-day weather aggregates, biological-capacity lag and rolling means,
days since season start, and yield per plant. -/
structure Features where
  temp_mean_7d : ℚ
  humidity_mean_7d : ℚ
  precipitation_7d_sum : ℚ
  sunshine_7d_sum : ℚ
  solar_radiation_7d_mean : ℚ
  kg_biological_prev_day : ℚ
  kg_biological_7d_mean : ℚ
  kg_biological_14d_mean : ℚ
  days_since_season_start : ℤ
  kg_per_plant : ℚ
deriving DecidableEq, Repr

/-- Batch feature row i of create_ml_dataset (ml_dataset.py lines 65-176):
rolling aggregates are trailing windows inclusive of row i (lines 71-79 and
126-128), the previous-day lag is a shift by one row (line 128),
days_since_season_start counts from the first record of the variety and year
(lines 143-148), and kg_per_plant is the current-day observed kg over
plants + 1 (line 154). The result is none when the row is absent from the
final dataset: row 0 is removed by the dropna of line 176 (its shift-lag
columns are null) and Sunday rows are removed by the filter of line 166;
rolling windows are computed before that filter, so they do include Sunday
rows. An index at or beyond the frame length is not a dataset row. -/
def create_ml_dataset_features (ds : Dataset) (i : Nat) : Option Features :=
  if i = 0 then none
  else if ds.dow i = 6 then none
  else if ds.rows.length ≤ i then none
  else some {
    temp_mean_7d := roll_mean (ds.colList RawDay.temperature_mean) 7 i
    humidity_mean_7d := roll_mean (ds.colList RawDay.humidity_mean) 7 i
    precipitation_7d_sum := roll_sum (ds.colList RawDay.precipitation) 7 i
    sunshine_7d_sum := roll_sum (ds.colList RawDay.sunshine_duration) 7 i
    solar_radiation_7d_mean := roll_mean (ds.colList RawDay.solar_radiation) 7 i
    kg_biological_prev_day := ds.kg_biological.getD (i - 1) 0
    kg_biological_7d_mean := roll_mean ds.kg_biological 7 i
    kg_biological_14d_mean := roll_mean ds.kg_biological 14 i
    days_since_season_start := (i : ℤ)
    kg_per_plant := ds.col RawDay.kg_produced i / ((ds.plants_nbrs : ℚ) + 1)
  }

/-- Row indices returned by the lookback query of calculate_features
(prediction_service.py lines 74-82): dates in the closed range from
target - 14 days to target - 1 day, for a target date of day number
firstDate + i; with consecutive rows these are the j with
max(0, i - 14) <= j <= i - 1 that exist in the frame. -/
def incr_window_idx (ds : Dataset) (i : Nat) : List Nat :=
  (List.range ds.rows.length).filter (fun j => i - 14 ≤ j ∧ j + 1 ≤ i)

/-- pandas tail(n): the last at-most-n entries. -/
def tail_n (n : Nat) (xs : List ℚ) : List ℚ :=
  xs.drop (xs.length - n)

/-- Column f of the lookback window, chronological order
(prediction_service.py lines 89-113). -/
def incr_hist (ds : Dataset) (i : Nat) (f : RawDay → ℚ) : List ℚ :=
  (incr_window_idx ds i).map (fun j => f (ds.rows.getD j default))

/-- kg_biological of the lookback window, prediction_service.py lines 96-98:
the incremental transform (fraction 0 replaced by 1) applied rowwise. -/
def incr_kg_biological (ds : Dataset) (i : Nat) : List ℚ :=
  (incr_window_idx ds i).map
    (fun j => to_capacity_incr (ds.dow j) (ds.col RawDay.kg_produced j))

/-- Incremental feature vector of calculate_features
(prediction_service.py lines 62-173) for a target date of day number
firstDate + i: none when the lookback query returns no harvest rows
(lines 84-86); otherwise 7-day aggregates are tail(7) of the window, which
excludes the target date (lines 116-124), the 14-day capacity mean is the
mean of the whole window (line 117), the previous-day capacity is the last
window row (line 118), days_since_season_start counts from January 1st of
the target year (lines 132-134), and kg_per_plant is the previous-day
capacity over plants_nbrs, or 0 when plants_nbrs is not positive
(line 140). -/
def calculate_features (ds : Dataset) (i : Nat) : Option Features :=
  let hk := incr_kg_biological ds i
  if hk = [] then none
  else
    let prev := hk.getLastD 0
    some {
      temp_mean_7d := listMean (tail_n 7 (incr_hist ds i RawDay.temperature_mean))
      humidity_mean_7d := listMean (tail_n 7 (incr_hist ds i RawDay.humidity_mean))
      precipitation_7d_sum := (tail_n 7 (incr_hist ds i RawDay.precipitation)).sum
      sunshine_7d_sum := (tail_n 7 (incr_hist ds i RawDay.sunshine_duration)).sum
      solar_radiation_7d_mean := listMean (tail_n 7 (incr_hist ds i RawDay.solar_radiation))
      kg_biological_prev_day := prev
      kg_biological_7d_mean := listMean (tail_n 7 hk)
      kg_biological_14d_mean := listMean hk
      days_since_season_start := ((ds.firstDate : ℤ) + i) - (ds.jan1 : ℤ)
      kg_per_plant := if 0 < ds.plants_nbrs then prev / (ds.plants_nbrs : ℚ) else 0
    }

/-- Concrete two-day history of one variety: first record on day number 70
(a Monday) with January 1st on day number 60, plant count 2, observed kg
3 then 4, temperatures 10 then 20. -/
def dsC1 : Dataset :=
  { firstDate := 70
    jan1 := 60
    plants_nbrs := 2
    rows := [⟨3, 10, 50, 1, 2, 4⟩, ⟨4, 20, 60, 3, 5, 6⟩] }

/-- One row of the persisted training dataset as seen by the split: its date
(day number) and a row identifier standing for all remaining columns. -/
structure TrainRow where
  date : Nat
  rowId : Nat
deriving DecidableEq, Repr

/-- Boundary index of the 80/20 split, ml_model.py line 124:
int(len(df) * 0.8). -/
def split_idx (n : Nat) : Nat :=
  4 * n / 5

/-- Training slice of train_biological_model, ml_model.py lines 123-129:
X.iloc up to split_idx. X and y keep the input (CSV) row order; the sorted
copy df_sorted of line 123 is only used for the progress printout of
lines 131-132, so the slice is positional in input order. -/
def train_slice (rows : List TrainRow) : List TrainRow :=
  rows.take (split_idx rows.length)

/-- Held-out slice, ml_model.py lines 127-129: X.iloc from split_idx on,
again in input row order. -/
def test_slice (rows : List TrainRow) : List TrainRow :=
  rows.drop (split_idx rows.length)

/-- Date order on training rows. -/
def dateLe (a b : TrainRow) : Prop :=
  a.date ≤ b.date

instance : DecidableRel dateLe :=
  fun a b => Nat.decLe a.date b.date

/-- Modelled from the spec: the chronological training slice the spec
describes for train_biological_model (the earliest 80 percent of dates form
the training set) — a stable sort by date followed by the same positional
cut. Used only as the comparison point for the split claim. -/
def chrono_train (rows : List TrainRow) : List TrainRow :=
  (rows.insertionSort dateLe).take (split_idx rows.length)

/-- Concrete persisted dataset in CSV order (sorted by variety then date, as
written by ml_dataset.py line 65): variety A on dates 1 and 4, then variety
B on dates 2 and 3. -/
def rows4 : List TrainRow :=
  [⟨1, 1⟩, ⟨4, 2⟩, ⟨2, 3⟩, ⟨3, 4⟩]

/-- The same four rows arriving in a different order. -/
def rows4perm : List TrainRow :=
  [⟨2, 3⟩, ⟨3, 4⟩, ⟨1, 1⟩, ⟨4, 2⟩]

/-- Feature column list declared in ml_model.py lines 46-96 (variety_encoded
is created at line 43 before the check, so it is listed as a plain column
of the frame here). -/
def feature_columns : List String :=
  ["variety_encoded", "plants_nbrs", "month", "week_of_year", "day_of_year",
   "day_of_week", "days_since_season_start", "temperature_mean",
   "humidity_mean", "precipitation", "sunshine_duration", "solar_radiation",
   "temp_mean_7d", "humidity_mean_7d", "precipitation_7d_sum",
   "sunshine_7d_sum", "solar_radiation_7d_mean", "temp_delta",
   "kg_biological_prev_day", "kg_biological_7d_mean",
   "kg_biological_14d_mean", "kg_per_plant"]

/-- Column checks of train_biological_model on the loaded frame columns:
a missing kg_biological target raises (ml_model.py lines 32-33); missing
feature columns are only warned about and filtered out of the feature list,
after which training proceeds (lines 98-104). -/
def check_columns (cols : List String) : Except String (List String) :=
  if cols.contains "kg_biological" then
    Except.ok (feature_columns.filter (fun c => cols.contains c))
  else
    Except.error "missing column kg_biological"

/-- Candidate model of the selection loop: declared name and held-out MAE. -/
structure Candidate where
  name : String
  mae : ℚ
deriving DecidableEq, Repr

/-- One iteration of the selection loop of ml_model.py lines 210-214:
best_score starts at infinity, so the first candidate always becomes the
incumbent, and a later candidate replaces it only when its MAE is strictly
smaller (line 211). -/
def select_step (best : Option Candidate) (c : Candidate) : Option Candidate :=
  match best with
  | none => some c
  | some b => if c.mae < b.mae then some c else some b

/-- Selection loop of ml_model.py lines 162-216 over the candidates in
declaration order; none for an empty candidate list. -/
def select_best (cands : List Candidate) : Option Candidate :=
  cands.foldl select_step none

/-- The part of the saved artifact the selection claim is about:
model and model_name of ml_model.py lines 282-287 with the winning MAE. -/
structure ModelArtifact where
  model_name : String
  mae : ℚ
deriving DecidableEq, Repr

/-- Artifact packaging of ml_model.py lines 282-298: the winning candidate
is stored under model and model_name. -/
def package_artifact (cands : List Candidate) : Option ModelArtifact :=
  (select_best cands).map (fun b => { model_name := b.name, mae := b.mae })

/-- Key of one stored Prediction row: variety identifier and day offset. -/
structure PredRecord where
  variety : Nat
  offset : Nat
deriving DecidableEq, Repr

/-- Per-pair body of the loop of generate_predictions
(prediction_service.py lines 209-264): skip when the plant configuration
lookup returns 0 (lines 217-221) or when calculate_features returns no
vector (lines 234-240); otherwise one Prediction row is added and the
counter incremented (lines 254-264). -/
def run_step (cfg : Nat → Nat → Nat) (feat : Nat → Nat → Option Features)
    (acc : List PredRecord × Nat) (p : Nat × Nat) : List PredRecord × Nat :=
  if cfg p.1 p.2 = 0 then acc
  else
    match feat p.1 p.2 with
    | none => acc
    | some _ => (acc.1 ++ [⟨p.1, p.2⟩], acc.2 + 1)

/-- Iteration order of generate_predictions (lines 209-213): every variety,
and for each variety every day offset 1..days. -/
def run_pairs (varieties : List Nat) (days : Nat) : List (Nat × Nat) :=
  varieties.flatMap (fun v => (List.range days).map (fun j => (v, j + 1)))

/-- Prediction loop of generate_predictions (lines 205-273): a fold over
every (variety, offset) pair producing the stored Prediction rows and the
reported total count. -/
def generate_predictions_run (varieties : List Nat) (days : Nat)
    (cfg : Nat → Nat → Nat) (feat : Nat → Nat → Option Features) :
    List PredRecord × Nat :=
  (run_pairs varieties days).foldl (run_step cfg feat) ([], 0)

/-- Observable outcome of a call: a normal return or a propagated
exception. -/
inductive Outcome (α : Type) where
  | normal : α → Outcome α
  | exn : String → Outcome α
deriving DecidableEq, Repr

/-- Whole generate_predictions including its try/except
(prediction_service.py lines 176-282): the body fetches the weather
forecast first (line 198), which may fail; any exception lands in the
handler of lines 276-279, which prints the message and traceback and falls
through to finally, so the call returns normally to its caller; on that
path db.commit() (line 270) is never reached, so no predictions are
persisted and no total is reported. -/
def generate_predictions (fetch : Except String Unit) (varieties : List Nat)
    (days : Nat) (cfg : Nat → Nat → Nat) (feat : Nat → Nat → Option Features) :
    Outcome (List PredRecord × Nat) :=
  match fetch with
  | Except.error _ => Outcome.normal ([], 0)
  | Except.ok _ => Outcome.normal (generate_predictions_run varieties days cfg feat)

/-- Pairs of the run that produce a stored Prediction row: plant
configuration present and a feature vector produced. -/
def run_sel (cfg : Nat → Nat → Nat) (feat : Nat → Nat → Option Features)
    (l : List (Nat × Nat)) : List PredRecord :=
  l.filterMap (fun p =>
    if cfg p.1 p.2 = 0 then none
    else
      match feat p.1 p.2 with
      | none => none
      | some _ => some ⟨p.1, p.2⟩)

/-- Batch feature vector of dsC1 at its second row (a Tuesday). -/
def fB1 : Features :=
  { temp_mean_7d := 15
    humidity_mean_7d := 55
    precipitation_7d_sum := 4
    sunshine_7d_sum := 7
    solar_radiation_7d_mean := 5
    kg_biological_prev_day := 9
    kg_biological_7d_mean := 21/2
    kg_biological_14d_mean := 21/2
    days_since_season_start := 1
    kg_per_plant := 4/3 }

/-- Incremental feature vector of dsC1 at the same date. -/
def fI1 : Features :=
  { temp_mean_7d := 10
    humidity_mean_7d := 50
    precipitation_7d_sum := 1
    sunshine_7d_sum := 2
    solar_radiation_7d_mean := 4
    kg_biological_prev_day := 9
    kg_biological_7d_mean := 9
    kg_biological_14d_mean := 9
    days_since_season_start := 11
    kg_per_plant := 9/2 }

/-- Percentage error of one validator row,
validate_predictions.py lines 69-71: absolute error over the realized value
times 100 when the realized kg is positive, and exactly 0 otherwise. -/
def error_pct (pred real : ℚ) : ℚ :=
  if 0 < real then |pred - real| / real * 100 else 0

/-- Validator MAPE, validate_predictions.py line 121: the mean of the
error_pct column over every joined row. A row carries
(predicted observed kg, realized observed kg). -/
def validator_mape (rows : List (ℚ × ℚ)) : ℚ :=
  listMean (rows.map (fun r => error_pct r.1 r.2))

/-- Trainer MAPE, ml_model.py lines 183-187: the mean absolute percentage
error over held-out rows with positive true value only, and 0 when no such
row exists. A pair carries (true capacity, predicted capacity). -/
def trainer_mape (pairs : List (ℚ × ℚ)) : ℚ :=
  let nz := pairs.filter (fun p => decide (0 < p.1))
  if nz = [] then 0
  else listMean (nz.map (fun p => |(p.1 - p.2) / p.1|)) * 100

/-- C4: for every day of week whose harvest fraction is nonzero and every
nonnegative kg value, converting observed kg to biological capacity and
back to observed units is the identity (exactly, in the rational
idealization of the float arithmetic). -/
theorem c4_capacity_roundtrip (d : Nat) (kg : ℚ)
    (hfrac : harvest_fraction d ≠ 0) (_hkg : 0 ≤ kg) :
    to_observed d (to_capacity d kg) = kg := by
  unfold to_observed to_capacity
  rw [if_neg hfrac]
  exact div_mul_cancel₀ kg hfrac

/-- Witness for C4 at Thursday (weekday 3, fraction one half) and kg 7. -/
theorem c4_capacity_roundtrip_witness :
    harvest_fraction 3 ≠ 0 ∧ (0 : ℚ) ≤ 7 ∧ to_observed 3 (to_capacity 3 7) = 7 :=
  ⟨by norm_num [harvest_fraction], by norm_num,
    c4_capacity_roundtrip 3 7 (by norm_num [harvest_fraction]) (by norm_num)⟩

/-- C2 is false for the incremental path: on the zero-fraction day
(weekday 6) the incremental transform of prediction_service.py line 98
divides kg 5 by the replaced fraction 1 and returns 5, not 0. -/
theorem c2_sunday_counterexample :
    to_capacity_incr 6 5 = 5 ∧ (5 : ℚ) ≠ 0 := by
  refine ⟨?_, by norm_num⟩
  norm_num [to_capacity_incr, harvest_fraction]

/-- C2 amended: on the zero-fraction day the batch transform returns 0 for
every kg value, while the incremental transform divides by the replaced
fraction 1 and returns the kg value unchanged; neither path divides by the
zero fraction. -/
theorem c2_zero_fraction_amended (kg : ℚ) :
    to_capacity 6 kg = 0 ∧ to_capacity_incr 6 kg = kg := by
  refine ⟨?_, ?_⟩ <;> simp [to_capacity, to_capacity_incr, harvest_fraction]

/-- C1: on the same two-day history, with the target date present in the
batch dataset, the batch and incremental feature builders disagree on
temp_mean_7d (the batch trailing window includes the current day, the
incremental one stops the day before), on both biological-capacity rolling
means, on days_since_season_start (first record of the variety-year versus
January 1st), and on kg_per_plant (current-day observed kg over plants + 1
versus previous-day capacity over plants); the claimed exact parity fails
on the code. -/
theorem c1_batch_incremental_divergence :
    create_ml_dataset_features dsC1 1 = some fB1
  ∧ calculate_features dsC1 1 = some fI1
  ∧ fB1.temp_mean_7d ≠ fI1.temp_mean_7d
  ∧ fB1.kg_biological_7d_mean ≠ fI1.kg_biological_7d_mean
  ∧ fB1.kg_biological_14d_mean ≠ fI1.kg_biological_14d_mean
  ∧ fB1.days_since_season_start ≠ fI1.days_since_season_start
  ∧ fB1.kg_per_plant ≠ fI1.kg_per_plant := by
  refine ⟨?_, ?_, ?_, ?_, ?_, ?_, ?_⟩
  · simp [create_ml_dataset_features, dsC1, fB1, roll_mean, roll_sum, trailing_window,
      listMean, Dataset.colList, Dataset.dow, Dataset.col, Dataset.kg_biological,
      to_capacity, harvest_fraction]
    norm_num
  · simp [calculate_features, dsC1, fI1, incr_kg_biological, incr_window_idx, incr_hist,
      tail_n, listMean, Dataset.dow, Dataset.col, to_capacity_incr, harvest_fraction,
      List.filter, List.range, List.range.loop]
    norm_num
  · norm_num [fB1, fI1]
  · norm_num [fB1, fI1]
  · norm_num [fB1, fI1]
  · norm_num [fB1, fI1]
  · norm_num [fB1, fI1]

/-- C3: on a four-row dataset in CSV order (variety A on dates 1 and 4,
variety B on dates 2 and 3) the code training slice is the first three rows
in input order, which contains the latest date 4 while the earlier date 3
is held out, so the training set is not the earliest 80 percent of dates;
and permuting the same input rows changes the training multiset, so the
split is not invariant to row arrival order. -/
theorem c3_split_not_chronological :
    train_slice rows4 = [⟨1, 1⟩, ⟨4, 2⟩, ⟨2, 3⟩]
  ∧ chrono_train rows4 = [⟨1, 1⟩, ⟨2, 3⟩, ⟨3, 4⟩]
  ∧ train_slice rows4 ≠ chrono_train rows4
  ∧ (⟨4, 2⟩ : TrainRow) ∈ train_slice rows4
  ∧ (⟨3, 4⟩ : TrainRow) ∈ test_slice rows4
  ∧ List.Perm rows4perm rows4
  ∧ ¬ List.Perm (train_slice rows4perm) (train_slice rows4) := by
  refine ⟨by decide, by decide, by decide, by decide, by decide, by decide, by decide⟩

/-- C5 is false on the code: at the second row of dsC1 the previous-day
biological capacity is 9 and plants_count is 2, so the claimed value of
kg_per_plant is 9 / 3 = 3, but the batch path computes 4 / 3 (current-day
observed kg over plants + 1) and the incremental path computes 9 / 2
(previous-day capacity over plants, without the + 1). -/
theorem c5_kg_per_plant_counterexample :
    create_ml_dataset_features dsC1 1 = some fB1
  ∧ calculate_features dsC1 1 = some fI1
  ∧ fB1.kg_biological_prev_day / ((dsC1.plants_nbrs : ℚ) + 1) = 3
  ∧ fB1.kg_per_plant ≠ 3
  ∧ fI1.kg_biological_prev_day / ((dsC1.plants_nbrs : ℚ) + 1) = 3
  ∧ fI1.kg_per_plant ≠ 3 := by
  refine ⟨?_, ?_, ?_, ?_, ?_, ?_⟩
  · simp [create_ml_dataset_features, dsC1, fB1, roll_mean, roll_sum, trailing_window,
      listMean, Dataset.colList, Dataset.dow, Dataset.col, Dataset.kg_biological,
      to_capacity, harvest_fraction]
    norm_num
  · simp [calculate_features, dsC1, fI1, incr_kg_biological, incr_window_idx, incr_hist,
      tail_n, listMean, Dataset.dow, Dataset.col, to_capacity_incr, harvest_fraction,
      List.filter, List.range, List.range.loop]
    norm_num
  · norm_num [fB1, dsC1]
  · norm_num [fB1]
  · norm_num [fI1, dsC1]
  · norm_num [fI1]

/-- C5 amended: every batch feature row carries
kg_per_plant = current-day observed kg / (plants_count + 1), and every
incremental feature vector carries kg_per_plant = previous-day biological
capacity / plants_count when plants_count is positive and 0 otherwise. -/
theorem c5_kg_per_plant_amended (ds : Dataset) (i : Nat) (fB fI : Features)
    (hB : create_ml_dataset_features ds i = some fB)
    (hI : calculate_features ds i = some fI) :
    fB.kg_per_plant = ds.col RawDay.kg_produced i / ((ds.plants_nbrs : ℚ) + 1)
  ∧ fI.kg_per_plant =
      (if 0 < ds.plants_nbrs then fI.kg_biological_prev_day / (ds.plants_nbrs : ℚ)
       else 0) := by
  constructor
  · simp only [create_ml_dataset_features] at hB
    split_ifs at hB
    rw [Option.some.injEq] at hB
    subst hB
    rfl
  · simp only [calculate_features] at hI
    by_cases hemp : incr_kg_biological ds i = []
    · rw [if_pos hemp] at hI
      exact Option.noConfusion hI
    · rw [if_neg hemp] at hI
      rw [Option.some.injEq] at hI
      subst hI
      rfl

/-- Witness for the amended C5 at dsC1 row 1. -/
theorem c5_kg_per_plant_amended_witness :
    fB1.kg_per_plant = dsC1.col RawDay.kg_produced 1 / ((dsC1.plants_nbrs : ℚ) + 1)
  ∧ fI1.kg_per_plant =
      (if 0 < dsC1.plants_nbrs then fI1.kg_biological_prev_day / (dsC1.plants_nbrs : ℚ)
       else 0) :=
  c5_kg_per_plant_amended dsC1 1 fB1 fI1
    (by
      simp [create_ml_dataset_features, dsC1, fB1, roll_mean, roll_sum, trailing_window,
        listMean, Dataset.colList, Dataset.dow, Dataset.col, Dataset.kg_biological,
        to_capacity, harvest_fraction]
      norm_num)
    (by
      simp [calculate_features, dsC1, fI1, incr_kg_biological, incr_window_idx, incr_hist,
        tail_n, listMean, Dataset.dow, Dataset.col, to_capacity_incr, harvest_fraction,
        List.filter, List.range, List.range.loop]
      norm_num)

/-- Helper: once an incumbent is at least as good as every remaining
candidate, the selection fold keeps it. -/
lemma select_foldl_stay (b : Candidate) (rest : List Candidate)
    (h : ∀ c ∈ rest, ¬ c.mae < b.mae) :
    rest.foldl select_step (some b) = some b := by
  induction rest with
  | nil => rfl
  | cons c cs ih =>
      rw [List.foldl_cons]
      have hc : select_step (some b) c = some b := by
        simp only [select_step]
        rw [if_neg (h c (List.mem_cons_self c cs))]
      rw [hc]
      exact ih (fun x hx => h x (List.mem_cons_of_mem c hx))

/-- C9: when the first two declared candidates tie on held-out MAE and no
later candidate is strictly better, the first-declared candidate is the
one selected and packaged into the model artifact. -/
theorem c9_tie_break (n₁ n₂ : String) (m : ℚ) (rest : List Candidate)
    (h : ∀ c ∈ rest, m ≤ c.mae) :
    package_artifact (⟨n₁, m⟩ :: ⟨n₂, m⟩ :: rest) =
      some { model_name := n₁, mae := m } := by
  unfold package_artifact select_best
  rw [List.foldl_cons, List.foldl_cons]
  have h1 : select_step none ⟨n₁, m⟩ = some ⟨n₁, m⟩ := rfl
  have h2 : select_step (some ⟨n₁, m⟩) ⟨n₂, m⟩ = some ⟨n₁, m⟩ := by
    simp only [select_step]
    rw [if_neg (lt_irrefl m)]
  rw [h1, h2, select_foldl_stay ⟨n₁, m⟩ rest (fun c hc => not_lt.mpr (h c hc))]
  rfl

/-- Witness for C9 with the two declared candidates of ml_model.py tied at
MAE 1. -/
theorem c9_tie_break_witness :
    package_artifact [⟨"Random Forest", 1⟩, ⟨"Gradient Boosting", 1⟩] =
      some { model_name := "Random Forest", mae := 1 } :=
  c9_tie_break "Random Forest" "Gradient Boosting" 1 []
    (fun c hc => absurd hc (List.not_mem_nil c))

/-- C6 is false on the code: a dataset carrying the target but missing the
declared feature column temp_delta is not rejected; the checker silently
drops temp_delta from the feature list and proceeds. -/
theorem c6_missing_feature_counterexample :
    check_columns ("kg_biological" :: feature_columns.erase "temp_delta") =
      Except.ok (feature_columns.erase "temp_delta")
  ∧ "temp_delta" ∈ feature_columns
  ∧ "temp_delta" ∉ feature_columns.erase "temp_delta" := by
  refine ⟨?_, by decide, by decide⟩
  rfl

/-- C6 amended: only a missing kg_biological target aborts the run, with a
diagnostic naming that column; when the target is present the checker
returns the declared feature list filtered to the columns present in the
frame (missing feature columns are dropped, never defaulted) and every
selected column exists in the frame. -/
theorem c6_schema_check_amended (cols : List String) :
    (cols.contains "kg_biological" = false →
      check_columns cols = Except.error "missing column kg_biological")
  ∧ (cols.contains "kg_biological" = true →
      check_columns cols =
        Except.ok (feature_columns.filter (fun c => cols.contains c)))
  ∧ (∀ sel, check_columns cols = Except.ok sel →
      ∀ c ∈ sel, cols.contains c = true) := by
  refine ⟨?_, ?_, ?_⟩
  · intro hmiss
    unfold check_columns
    rw [hmiss]
    rfl
  · intro hhit
    unfold check_columns
    rw [hhit]
    rfl
  · intro sel hsel c hc
    unfold check_columns at hsel
    by_cases hk : cols.contains "kg_biological"
    · rw [if_pos hk] at hsel
      have := Except.ok.inj hsel
      subst this
      exact (List.mem_filter.mp hc).2
    · rw [if_neg (by simpa using hk)] at hsel
      cases hsel

/-- Witness for the amended C6: a frame without the target is rejected with
the diagnostic naming kg_biological. -/
theorem c6_schema_check_amended_witness :
    check_columns ["plants_nbrs", "month"] =
      Except.error "missing column kg_biological" :=
  (c6_schema_check_amended ["plants_nbrs", "month"]).1 (by decide)

/-- C7 is false on the code: when the weather-forecast fetch fails,
generate_predictions returns normally (with nothing persisted) instead of
propagating the exception to its caller. -/
theorem c7_swallowed_counterexample :
    generate_predictions (Except.error "weather fetch failed") [1] 7
        (fun _ _ => 1) (fun _ _ => none) = Outcome.normal ([], 0)
  ∧ Outcome.normal ([], 0) ≠
      Outcome.exn (α := List PredRecord × Nat) "weather fetch failed" := by
  exact ⟨rfl, by simp⟩

/-- C7 amended: whatever the error and the rest of the run inputs, a failed
weather fetch makes generate_predictions catch the exception, log it, and
return normally with no predictions persisted and no total reported; the
error never reaches the caller as an exception. -/
theorem c7_fetch_failure_amended (e : String) (vs : List Nat) (days : Nat)
    (cfg : Nat → Nat → Nat) (feat : Nat → Nat → Option Features) :
    generate_predictions (Except.error e) vs days cfg feat = Outcome.normal ([], 0) := rfl

/-- C10: a joined validator row whose realized kg is zero gets percentage
error exactly 0 yet still counts in the MAPE denominator (appending such a
row leaves the numerator unchanged and grows the denominator by one), while
the trainer MAPE is unchanged by appending a zero-truth row, since it
filters those rows out. -/
theorem c10_validator_mape_zero_rows (rows pairs : List (ℚ × ℚ)) (p q : ℚ) :
    error_pct p 0 = 0
  ∧ validator_mape (rows ++ [(p, 0)]) =
      (rows.map (fun r => error_pct r.1 r.2)).sum / ((rows.length : ℚ) + 1)
  ∧ trainer_mape (pairs ++ [(0, q)]) = trainer_mape pairs := by
  refine ⟨by simp [error_pct], ?_, ?_⟩
  · simp [validator_mape, listMean, error_pct]
  · have hf : List.filter (fun p : ℚ × ℚ => decide (0 < p.1)) (pairs ++ [(0, q)]) =
        List.filter (fun p : ℚ × ℚ => decide (0 < p.1)) pairs := by
      simp [List.filter_append]
    simp only [trainer_mape, hf]

/-- Helper: the prediction fold appends exactly the selected pairs and adds
their number to the counter. -/
lemma run_foldl_spec (cfg : Nat → Nat → Nat) (feat : Nat → Nat → Option Features)
    (l : List (Nat × Nat)) (acc : List PredRecord) (n : Nat) :
    l.foldl (run_step cfg feat) (acc, n) =
      (acc ++ run_sel cfg feat l, n + (run_sel cfg feat l).length) := by
  induction l generalizing acc n with
  | nil => simp [run_sel]
  | cons p ps ih =>
      rw [List.foldl_cons]
      by_cases hc : cfg p.1 p.2 = 0
      · rw [show run_step cfg feat (acc, n) p = (acc, n) by simp [run_step, hc]]
        rw [ih]
        simp [run_sel, List.filterMap_cons, hc]
      · cases hf : feat p.1 p.2 with
        | none =>
            rw [show run_step cfg feat (acc, n) p = (acc, n) by simp [run_step, hc, hf]]
            rw [ih]
            simp [run_sel, List.filterMap_cons, hc, hf]
        | some f =>
            rw [show run_step cfg feat (acc, n) p = (acc ++ [⟨p.1, p.2⟩], n + 1)
              by simp [run_step, hc, hf]]
            rw [ih]
            simp [run_sel, List.filterMap_cons, hc, hf]
            omega

/-- Helper: a prediction row is selected exactly when its pair was
attempted with a configuration present and a feature vector produced. -/
lemma run_sel_mem (cfg : Nat → Nat → Nat) (feat : Nat → Nat → Option Features)
    (l : List (Nat × Nat)) (r : PredRecord) :
    r ∈ run_sel cfg feat l ↔
      ((r.variety, r.offset) ∈ l ∧ cfg r.variety r.offset ≠ 0
        ∧ feat r.variety r.offset ≠ none) := by
  obtain ⟨rv, rk⟩ := r
  unfold run_sel
  rw [List.mem_filterMap]
  constructor
  · rintro ⟨p, hp, hsome⟩
    by_cases hc : cfg p.1 p.2 = 0
    · rw [if_pos hc] at hsome
      exact Option.noConfusion hsome
    · rw [if_neg hc] at hsome
      cases hf : feat p.1 p.2 with
      | none =>
          rw [hf] at hsome
          exact Option.noConfusion hsome
      | some f =>
          rw [hf] at hsome
          rw [Option.some.injEq] at hsome
          cases hsome
          refine ⟨by simpa using hp, hc, by simp [hf]⟩
  · rintro ⟨hmem, hc, hf⟩
    refine ⟨(rv, rk), hmem, ?_⟩
    rw [if_neg hc]
    cases hfv : feat rv rk with
    | none => exact absurd hfv hf
    | some f => rfl

/-- Helper: the run iterates exactly over every variety and every day
offset between 1 and days. -/
lemma run_pairs_mem (vs : List Nat) (days : Nat) (v k : Nat) :
    (v, k) ∈ run_pairs vs days ↔ (v ∈ vs ∧ 1 ≤ k ∧ k ≤ days) := by
  unfold run_pairs
  simp only [List.mem_flatMap, List.mem_map, List.mem_range]
  constructor
  · rintro ⟨v', hv', j, hj, hpair⟩
    rw [Prod.mk.injEq] at hpair
    obtain ⟨rfl, rfl⟩ := hpair
    exact ⟨hv', by omega, by omega⟩
  · rintro ⟨hv, h1, h2⟩
    refine ⟨v, hv, k - 1, by omega, ?_⟩
    rw [Prod.mk.injEq]
    omega

/-- Helper: the incremental builder returns no feature vector exactly when
the lookback window holds no harvest row. -/
lemma calculate_features_none_iff (ds : Dataset) (i : Nat) :
    calculate_features ds i = none ↔ incr_window_idx ds i = [] := by
  have hmap : incr_kg_biological ds i = [] ↔ incr_window_idx ds i = [] := by
    simp [incr_kg_biological]
  simp only [calculate_features]
  by_cases h : incr_kg_biological ds i = []
  · rw [if_pos h]
    simpa using hmap.mp h
  · rw [if_neg h]
    simp only [reduceCtorEq, false_iff]
    intro hidx
    exact h (hmap.mpr hidx)

/-- C8: the incremental builder produces no feature vector exactly when the
lookback window holds zero historical harvest rows (never a defaulted
vector); the prediction run stores a row for a (variety, day) pair exactly
when that pair is among the attempted ones, its plant configuration is
present and its feature vector exists — so a skipped pair never prevents
any other pair from being attempted — and the reported total equals the
number of prediction rows written. -/
theorem c8_no_history_skip_and_continue (vs : List Nat) (days : Nat)
    (cfg : Nat → Nat → Nat) (dsOf : Nat → Dataset) (idx : Nat → Nat → Nat) :
    (∀ v k, calculate_features (dsOf v) (idx v k) = none ↔
      incr_window_idx (dsOf v) (idx v k) = [])
  ∧ (∀ r : PredRecord,
      r ∈ (generate_predictions_run vs days cfg
          (fun v k => calculate_features (dsOf v) (idx v k))).1 ↔
        (r.variety ∈ vs ∧ 1 ≤ r.offset ∧ r.offset ≤ days
          ∧ cfg r.variety r.offset ≠ 0
          ∧ calculate_features (dsOf r.variety) (idx r.variety r.offset) ≠ none))
  ∧ (generate_predictions_run vs days cfg
        (fun v k => calculate_features (dsOf v) (idx v k))).2 =
      (generate_predictions_run vs days cfg
        (fun v k => calculate_features (dsOf v) (idx v k))).1.length := by
  refine ⟨fun v k => calculate_features_none_iff (dsOf v) (idx v k), ?_, ?_⟩
  · intro r
    unfold generate_predictions_run
    rw [run_foldl_spec]
    simp only [List.nil_append]
    rw [run_sel_mem]
    rw [run_pairs_mem]
    tauto
  · unfold generate_predictions_run
    rw [run_foldl_spec]
    simp

/-- Witness for C8: one variety with the dsC1 history over a two-day
horizon stores the day-1 prediction and reports a total equal to the
number of rows written. -/
theorem c8_no_history_skip_and_continue_witness :
    (⟨0, 1⟩ : PredRecord) ∈ (generate_predictions_run [0] 2 (fun _ _ => 1)
      (fun v k => calculate_features ((fun _ => dsC1) v) ((fun _ k => k) v k))).1
  ∧ (generate_predictions_run [0] 2 (fun _ _ => 1)
      (fun v k => calculate_features ((fun _ => dsC1) v) ((fun _ k => k) v k))).2 =
    (generate_predictions_run [0] 2 (fun _ _ => 1)
      (fun v k => calculate_features ((fun _ => dsC1) v) ((fun _ k => k) v k))).1.length := by
  have h := c8_no_history_skip_and_continue [0] 2 (fun _ _ => 1) (fun _ => dsC1)
    (fun _ k => k)
  refine ⟨(h.2.1 ⟨0, 1⟩).mpr ⟨by simp, by norm_num, by norm_num, by norm_num, ?_⟩, h.2.2⟩
  intro hnone
  rw [h.1 0 1] at hnone
  exact absurd hnone (by decide)

end Strawberry
